import Mathlib

/-
Verification development for the france-cars spatial processing pipeline.

The repository has three revisions of the same PostGIS helper logic:
  * src/lib.py     - the current `SqlProcessor` class (used by main.py);
  * src/utils.py   - an earlier cursor-based revision of the same functions;
  * src/legacy.py  - the oldest revision.

The embedding below is a shallow one.  The external geometry engine is
modelled by a `Db` record of response oracles (the SRID reported for a
relation, the rows fetched by the distinct-geometry-type query, and
whether the engine rejects a DROP of a given relation).  Every operation
is translated into a pure function returning the list of statements it
sends to the engine (its trace) together with an `Except` value: Python
`raise` sites become `Except.error` with the error taxonomy of the spec.

Each statement the Python code can send - a template file with its
positional parameters, or an inline f-string query - is represented by
one constructor of `Stmt` carrying exactly the parameters the Python
call site substitutes.
-/

/-- Error taxonomy of the spec (section 7).  The Python code raises
`ValueError` (or hits `KeyError` / `IndexError`); each `raise` site is
mapped to the corresponding member of the taxonomy. -/
inductive Err where
  /-- raised when `execute_query` is given a mode outside file / string. -/
  | unsupportedMode
  /-- file mode requested while `sql_directory` is `None`. -/
  | configurationError
  /-- raised when `convert_st_to_type` is given a string without the `ST_` marker. -/
  | invalidGeometryType
  /-- a type-homogeneity check found an unsuitable number of types. -/
  | mixedGeometryType
  /-- a binary operation got inputs with different SRIDs. -/
  | sridMismatch
  /-- raised when `drop_relations` is given a kind other than TABLE / VIEW. -/
  | invalidRelationKind
  /-- the engine rejected a DROP of the named relation. -/
  | relationDrop (relation : String)
  /-- Python `KeyError`: `DIMENSION[t]` for a kind outside the table. -/
  | keyError
  /-- Python `IndexError`: `[0]` on an empty fetch result. -/
  | indexError
  deriving DecidableEq, Repr

instance {ε α : Type} [DecidableEq ε] [DecidableEq α] : DecidableEq (Except ε α) :=
  fun x y =>
    match x, y with
    | .ok a, .ok b =>
      if h : a = b then isTrue (by rw [h]) else isFalse (by intro he; injection he; exact h (by assumption))
    | .error a, .error b =>
      if h : a = b then isTrue (by rw [h]) else isFalse (by intro he; injection he; exact h (by assumption))
    | .ok _, .error _ => isFalse (by intro he; injection he)
    | .error _, .ok _ => isFalse (by intro he; injection he)

/-- One statement sent to the geometry engine.  Each constructor stands
for one template file (with the positional parameters the caller
substitutes) or one inline query of the Python sources. -/
inductive Stmt where
  /-- template `select_srid.sql` — also the inline `SELECT DISTINCT ST_SRID`
  query of utils.py / legacy.py `get_srid`. -/
  | selectSrid (relation : String)
  /-- template `select_distinct_geometry_type.sql` — also the inline query of
  utils.py / legacy.py `get_geometry_type`. -/
  | selectGeometryTypes (relation : String)
  /-- template `create_spatial_index.sql` — also the inline `CREATE INDEX` of
  utils.py / legacy.py `create_spatial_index`. -/
  | createSpatialIndex (relation : String)
  /-- template `singlepart_to_multipart.sql`, called with (relation, srid) by
  `SqlProcessor.singlepart_to_multipart`. -/
  | stMultiUpdate (relation : String) (srid : Int)
  /-- the inline `UPDATE ... SET geometry = ST_Multi(geometry)` of
  utils.py / legacy.py `single_to_multi_geometry`. -/
  | updateSetMulti (relation : String)
  /-- template `create_intersection_geometries.sql`, called with
  (relation_type, relation, fields, relation_a, relation_b, dimension);
  utils.py / legacy.py inline the same query with the same parameters. -/
  | createIntersection (relation_type relation fields relation_a relation_b : String)
      (dimension : Nat)
  /-- the inline query `DROP TABLE public."dropped"; ALTER TABLE
  public."renamedFrom" RENAME TO "renamedTo";` sent as one statement by
  the in-place replacement step of the intersect operation. -/
  | dropAndRename (dropped renamedFrom renamedTo : String)
  /-- template `create_dissolve_geometries.sql`, called with (relation_type,
  out_name, srid, relation_a, relation_b); the geometry_type field
  records the cast `::geometry(Polygon, srid)` of the query body, taken
  from the inline legacy.py / utils.py `aggregate_relations` query (the
  template file itself is not under src/). -/
  | createDissolve (relation_type out_name geometry_type : String) (srid : Int)
      (relation_a relation_b : String)
  /-- template `drop_relation.sql`, called with (relation_type, relation,
  "CASCADE"). -/
  | dropRelation (relation_type relation cascade : String)
  deriving DecidableEq, Repr

/-- The response behaviour of the external geometry engine: what the
metadata queries return for each relation name, and which DROP
statements the engine rejects. -/
structure Db where
  /-- value returned by the SRID query (first row, first column). -/
  srid : String → Int
  /-- rows fetched by the distinct-geometry-type query: one tuple per
  distinct row group, each a list of column values. -/
  geomTypes : String → List (List String)
  /-- whether the engine rejects a DROP of this relation. -/
  dropFails : String → Bool

/-- Python `str.lower()` as applied to the ASCII mode strings of this
code base: lower-case every character.  (`String.toLower` itself is not
kernel-reducible, so the character map is spelled out.) -/
def pyLower (s : String) : String :=
  String.mk (s.toList.map Char.toLower)

/-- Python `str.upper()` as applied to the ASCII kind strings of this
code base: upper-case every character. -/
def pyUpper (s : String) : String :=
  String.mk (s.toList.map Char.toUpper)

/-- lib.py `flatten`: itertools.chain over a list of lists. -/
def flatten {α : Type} (lists : List (List α)) : List α :=
  lists.flatten

/-- lib.py `has_single_geometry_type`: `len(geometry_type) == 1`. -/
def has_single_geometry_type (geometry_type : List String) : Bool :=
  geometry_type.length == 1

/-- lib.py `convert_st_to_type` (identical in utils.py and legacy.py):
reject strings whose first three characters are not `S`, `T`, `_`;
otherwise drop those three characters, and - when multipart geometry is
not allowed and the remainder starts with `Multi` - drop those five
characters as well.  Python slices `g[:3]`, `g[3:]`, `g[:5]`, `g[5:]`
become `take` / `drop` on the character list. -/
def convert_st_to_type (geometry : String) (allow_multi : Bool) : Except Err String :=
  if geometry.toList.take 3 ≠ "ST_".toList then
    .error .invalidGeometryType
  else if (geometry.toList.drop 3).take 5 = "Multi".toList ∧ allow_multi = false then
    .ok (String.mk ((geometry.toList.drop 3).drop 5))
  else
    .ok (String.mk (geometry.toList.drop 3))

/-- the `DIMENSION` dictionary of the intersect operation; lookup of a
missing key is `none` (a Python `KeyError`). -/
def DIMENSION (geometry_type : String) : Option Nat :=
  if geometry_type = "Point" then some 0
  else if geometry_type = "LineString" then some 1
  else if geometry_type = "Polygon" then some 2
  else none

/-- the field-list construction shared by every revision of the
intersect operation: qualify the fields of each side and join the two
qualified lists with a comma. -/
def intersect_fields (fields_a fields_b : List String) : String :=
  String.intercalate ", "
    (fields_a.map (fun field => "a.\"" ++ field ++ "\"")
      ++ fields_b.map (fun field => "b.\"" ++ field ++ "\""))

namespace SqlProcessor

/-- lib.py `SqlProcessor.execute_query`.  The mode is validated, file
mode requires a configured SQL directory, then the statement text is
resolved (read from the file in file mode) and sent with its positional
parameters; `query.format(*parameters)` is modelled by pairing the text
with the parameter list.  The file system is the `readFile` oracle. -/
def execute_query (sql_directory : Option String) (readFile : String → String)
    (mode query : String) (parameters : List String) :
    Except Err (String × List String) :=
  if ¬(pyLower mode = "file" ∨ pyLower mode = "string") then
    .error .unsupportedMode
  else if pyLower mode = "file" ∧ sql_directory = none then
    .error .configurationError
  else
    let text := if pyLower mode = "file" then readFile query else query
    .ok (text, parameters)

/-- lib.py `SqlProcessor.get_srid`: one `select_srid.sql` round trip,
returning the first value the engine reports. -/
def get_srid (db : Db) (relation : String) : List Stmt × Int :=
  ([Stmt.selectSrid relation], db.srid relation)

/-- lib.py `SqlProcessor.is_same_srid`: fetch both SRIDs, compare. -/
def is_same_srid (db : Db) (relation_a relation_b : String) : List Stmt × Bool :=
  ((get_srid db relation_a).1 ++ (get_srid db relation_b).1,
   (get_srid db relation_a).2 == (get_srid db relation_b).2)

/-- lib.py `SqlProcessor.create_spatial_index`: one
`create_spatial_index.sql` round trip. -/
def create_spatial_index (relation : String) : List Stmt :=
  [Stmt.createSpatialIndex relation]

/-- lib.py `SqlProcessor.singlepart_to_multipart`: fetch the SRID, then
run `singlepart_to_multipart.sql` with (relation, srid). -/
def singlepart_to_multipart (db : Db) (relation : String) : List Stmt :=
  (get_srid db relation).1 ++ [Stmt.stMultiUpdate relation ((get_srid db relation).2)]

/-- lib.py `SqlProcessor.get_geometry_types`: one
`select_distinct_geometry_type.sql` round trip, returning the fetched
rows exactly as the engine produced them. -/
def get_geometry_types (db : Db) (relation : String) : List Stmt × List (List String) :=
  ([Stmt.selectGeometryTypes relation], db.geomTypes relation)

/-- lib.py `SqlProcessor.map_geometry_type`: fetch the distinct types,
flatten the row structure, and when exactly one type remains convert it
with `convert_st_to_type`; otherwise raise.  The `headD` stands for the
Python index `[0]`, reachable only under the length-one guard. -/
def map_geometry_type (db : Db) (relation : String) (allow_multi : Bool) :
    List Stmt × Except Err String :=
  let fetched := get_geometry_types db relation
  let geometry_types := flatten fetched.2
  (fetched.1,
   if has_single_geometry_type geometry_types then
     convert_st_to_type (geometry_types.headD "") allow_multi
   else
     .error .mixedGeometryType)

/-- lib.py `SqlProcessor.intersect_geometries`: SRID precondition, field
list construction, geometry type of `relation_b` collapsed to its
singlepart form, creation of the result under `out_name` (or
`relation_b` + `_tmp`), the in-place drop-and-rename when no output
name was given, and the conditional spatial index. -/
def intersect_geometries (db : Db) (relation_a relation_b : String)
    (fields_a fields_b : List String) (as_view : Bool) (out_name : Option String)
    (build_index : Bool) : List Stmt × Except Err Unit :=
  let check := is_same_srid db relation_a relation_b
  if !check.2 then
    (check.1, .error .sridMismatch)
  else
    let fields := intersect_fields fields_a fields_b
    let mapped := map_geometry_type db relation_b false
    match mapped.2 with
    | .error e => (check.1 ++ mapped.1, .error e)
    | .ok geometry_type_b =>
      let relation := match out_name with
        | none => relation_b ++ "_tmp"
        | some n => n
      let relation_type := if as_view then "VIEW" else "TABLE"
      match DIMENSION geometry_type_b with
      | none => (check.1 ++ mapped.1, .error .keyError)
      | some dimension =>
        let createTrace :=
          [Stmt.createIntersection relation_type relation fields relation_a relation_b
            dimension]
        let replaceTrace :=
          if out_name = none then [Stmt.dropAndRename relation_b relation relation_b]
          else []
        let indexTrace :=
          if build_index && (relation_type == "TABLE") then
            match out_name with
            | none => create_spatial_index relation_b
            | some n => create_spatial_index n
          else []
        (check.1 ++ mapped.1 ++ createTrace ++ replaceTrace ++ indexTrace, .ok ())

/-- lib.py `SqlProcessor.dissolve_geometries`: SRID precondition, SRID
taken from `relation_a`, creation of the result under `out_name`, and
the conditional spatial index.  The template file
`create_dissolve_geometries.sql` is repository code not under src/; its
body (geometry cast to singlepart Polygon at the given SRID) is
modelled from the spec and from the identical inline query of
legacy.py / utils.py `aggregate_relations`. -/
def dissolve_geometries (db : Db) (relation_a relation_b out_name : String)
    (as_view build_index : Bool) : List Stmt × Except Err Unit :=
  let check := is_same_srid db relation_a relation_b
  if !check.2 then
    (check.1, .error .sridMismatch)
  else
    let fetched := get_srid db relation_a
    let relation_type := if as_view then "VIEW" else "TABLE"
    let createTrace :=
      [Stmt.createDissolve relation_type out_name "Polygon" fetched.2 relation_a
        relation_b]
    let indexTrace :=
      if build_index && (relation_type == "TABLE") then create_spatial_index out_name
      else []
    (check.1 ++ fetched.1 ++ createTrace ++ indexTrace, .ok ())

/-- the per-name loop of lib.py `SqlProcessor.drop_relations`: issue one
`drop_relation.sql` per name; when the engine rejects one, stop
immediately and raise naming that relation. -/
def drop_loop (db : Db) (relation_type : String) : List String → List Stmt × Except Err Unit
  | [] => ([], .ok ())
  | relation :: rest =>
    let stmt := Stmt.dropRelation relation_type relation "CASCADE"
    if db.dropFails relation then
      ([stmt], .error (.relationDrop relation))
    else
      let tail := drop_loop db relation_type rest
      (stmt :: tail.1, tail.2)

/-- lib.py `SqlProcessor.drop_relations`: validate the kind (after
uppercasing) against TABLE / VIEW before issuing any drop. -/
def drop_relations (db : Db) (relation_type : String) (relations : List String) :
    List Stmt × Except Err Unit :=
  if ¬(pyUpper relation_type = "TABLE" ∨ pyUpper relation_type = "VIEW") then
    ([], .error .invalidRelationKind)
  else
    drop_loop db relation_type relations

end SqlProcessor

namespace Utils

/-- utils.py `get_geometry_type` (identical in legacy.py): run the
distinct-geometry-type query and return `fetchall()[0]`, the first
fetched row; an empty fetch is a Python `IndexError`. -/
def get_geometry_type (db : Db) (relation : String) :
    List Stmt × Except Err (List String) :=
  ([Stmt.selectGeometryTypes relation],
   match db.geomTypes relation with
   | [] => .error .indexError
   | row :: _ => .ok row)

/-- utils.py `has_single_geometry_type` (identical in legacy.py): raise
only when strictly more than one type is present. -/
def has_single_geometry_type (geometry_type : List String) : Except Err Unit :=
  if 1 < geometry_type.length then .error .mixedGeometryType else .ok ()

/-- utils.py `create_spatial_index` (identical in legacy.py): one
inline `CREATE INDEX` statement. -/
def create_spatial_index (relation : String) : List Stmt :=
  [Stmt.createSpatialIndex relation]

/-- utils.py `get_srid` (identical in legacy.py). -/
def get_srid (db : Db) (relation : String) : List Stmt × Int :=
  ([Stmt.selectSrid relation], db.srid relation)

/-- utils.py `intersect_geometries` (identical in legacy.py): the same
operation as the `SqlProcessor` version except that no SRID comparison
is performed - the function goes straight to the geometry-type fetch
and the CREATE statement. -/
def intersect_geometries (db : Db) (relation_a relation_b : String)
    (fields_a fields_b : List String) (as_view : Bool) (out_name : Option String)
    (build_index : Bool) : List Stmt × Except Err Unit :=
  let fields := intersect_fields fields_a fields_b
  let fetched := get_geometry_type db relation_b
  match fetched.2 with
  | .error e => (fetched.1, .error e)
  | .ok geometry_types_b =>
    match has_single_geometry_type geometry_types_b with
    | .error e => (fetched.1, .error e)
    | .ok _ =>
      match geometry_types_b with
      | [] => (fetched.1, .error .indexError)
      | t :: _ =>
        match convert_st_to_type t false with
        | .error e => (fetched.1, .error e)
        | .ok geometry_type_b =>
          let relation := match out_name with
            | none => relation_b ++ "_tmp"
            | some n => n
          let relation_type := if as_view then "VIEW" else "TABLE"
          match DIMENSION geometry_type_b with
          | none => (fetched.1, .error .keyError)
          | some dimension =>
            let createTrace :=
              [Stmt.createIntersection relation_type relation fields relation_a
                relation_b dimension]
            let replaceTrace :=
              if out_name = none then
                [Stmt.dropAndRename relation_b relation relation_b]
              else []
            let indexTrace :=
              if build_index && (relation_type == "TABLE") then
                match out_name with
                | none => create_spatial_index relation_b
                | some n => create_spatial_index n
              else []
            (fetched.1 ++ createTrace ++ replaceTrace ++ indexTrace, .ok ())

end Utils

namespace Legacy

/-- legacy.py `has_single_geometry_type`: raise only when strictly more
than one type is present (the empty tuple passes). -/
def has_single_geometry_type (geometry_type : List String) : Except Err Unit :=
  if 1 < geometry_type.length then .error .mixedGeometryType else .ok ()

/-- legacy.py `create_spatial_index`. -/
def create_spatial_index (relation : String) : List Stmt :=
  [Stmt.createSpatialIndex relation]

/-- legacy.py `single_to_multi_geometry` (identical in utils.py): one
inline `UPDATE ... SET geometry = ST_Multi(geometry)` statement. -/
def single_to_multi_geometry (relation : String) : List Stmt :=
  [Stmt.updateSetMulti relation]

/-- legacy.py `aggregate_relations` (identical in utils.py): fetch both
SRIDs, raise on mismatch, create the dissolve result under `out_name`
(its query casts to `::geometry(Polygon, srid_a)`), then build the
spatial index whenever `build_index` is set - with no table-versus-view
guard. -/
def aggregate_relations (db : Db) (relation_a relation_b out_name : String)
    (as_view build_index : Bool) : List Stmt × Except Err Unit :=
  let sridTrace := [Stmt.selectSrid relation_a, Stmt.selectSrid relation_b]
  let srid_a := db.srid relation_a
  let srid_b := db.srid relation_b
  if srid_a ≠ srid_b then
    (sridTrace, .error .sridMismatch)
  else
    let relation_type := if as_view then "VIEW" else "TABLE"
    let createTrace :=
      [Stmt.createDissolve relation_type out_name "Polygon" srid_a relation_a
        relation_b]
    let indexTrace := if build_index then create_spatial_index out_name else []
    (sridTrace ++ createTrace ++ indexTrace, .ok ())

end Legacy

/-- a stored geometry value, abstracted over the coordinate payload:
one constructor per member of the PostGIS singlepart / multipart type
vocabulary used by the pipeline. -/
inductive Geometry (α : Type) where
  | point (c : α)
  | lineString (c : α)
  | polygon (c : α)
  | multiPoint (cs : List α)
  | multiLineString (cs : List α)
  | multiPolygon (cs : List α)
  deriving DecidableEq, Repr

/-- Modelled from the spec: the engine function `ST_Multi` applied by
the singlepart-to-multipart statement is external engine code, not in
the repository; following the spec, a singlepart geometry becomes the
multipart equivalent with one part and a multipart geometry is left
unchanged. -/
def stMulti {α : Type} : Geometry α → Geometry α
  | .point c => .multiPoint [c]
  | .lineString c => .multiLineString [c]
  | .polygon c => .multiPolygon [c]
  | .multiPoint cs => .multiPoint cs
  | .multiLineString cs => .multiLineString cs
  | .multiPolygon cs => .multiPolygon cs

/-- the data-level effect of the singlepart-to-multipart statement
(`UPDATE ... SET geometry = ST_Multi(geometry)`, inline in legacy.py
`single_to_multi_geometry` and behind `singlepart_to_multipart.sql` in
lib.py): rewrite every stored geometry through `stMulti`. -/
def singlepart_to_multipart_data {α : Type} (rows : List (Geometry α)) :
    List (Geometry α) :=
  rows.map stMulti

/-- Modelled from the spec: the behaviour the claim attributes to
`get_geometry_types` - fetch the distinct engine-native strings,
normalize each one (failing when the `ST_` marker is absent), and
flatten the row grouping into a flat set.  Stated only to be compared
against the embedded `SqlProcessor.get_geometry_types`. -/
def get_geometry_types_claimed (db : Db) (relation : String) :
    Except Err (List String) :=
  ((flatten (db.geomTypes relation)).mapM
    (fun t => convert_st_to_type t true)).map List.dedup

/-- concrete engine behaviour: every relation reports SRID 2154 and a
single Polygon row group; no drop fails. -/
def dbEq : Db :=
  { srid := fun _ => 2154
    geomTypes := fun _ => [["ST_Polygon"]]
    dropFails := fun _ => false }

/-- concrete engine behaviour: relation `a` reports SRID 2154, every
other relation reports 4326. -/
def dbMismatch : Db :=
  { srid := fun r => if r = "a" then 2154 else 4326
    geomTypes := fun _ => [["ST_Polygon"]]
    dropFails := fun _ => false }

/-- concrete engine behaviour: the distinct-geometry-type query reports
a string without the `ST_` marker. -/
def dbBadType : Db :=
  { srid := fun _ => 0
    geomTypes := fun _ => [["XY_Polygon"]]
    dropFails := fun _ => false }

/-- concrete engine behaviour: the type query reports one multipart
row group. -/
def dbMulti : Db :=
  { srid := fun _ => 2154
    geomTypes := fun _ => [["ST_MultiPolygon"]]
    dropFails := fun _ => false }

/-- concrete engine behaviour: the engine rejects dropping the relation
named `bad` and accepts every other drop. -/
def dbDrop : Db :=
  { srid := fun _ => 0
    geomTypes := fun _ => []
    dropFails := fun r => r == "bad" }

theorem convert_st_yes (s : String) :
    convert_st_to_type ("ST_" ++ s) true = Except.ok s := by
  have h : ("ST_" ++ s).toList = 'S' :: 'T' :: '_' :: s.toList := rfl
  simp [convert_st_to_type, h]

theorem convert_st_multi (s : String) (h5 : s.toList.take 5 = "Multi".toList) :
    convert_st_to_type ("ST_" ++ s) false = Except.ok (String.mk (s.toList.drop 5)) := by
  have h : ("ST_" ++ s).toList = 'S' :: 'T' :: '_' :: s.toList := rfl
  have h5d : List.take 5 s.data = ['M', 'u', 'l', 't', 'i'] := h5
  simp [convert_st_to_type, h, h5d]

theorem convert_st_nomulti (s : String) (h5 : s.toList.take 5 ≠ "Multi".toList) :
    convert_st_to_type ("ST_" ++ s) false = Except.ok s := by
  have h : ("ST_" ++ s).toList = 'S' :: 'T' :: '_' :: s.toList := rfl
  have h5d : ¬(List.take 5 s.data = ['M', 'u', 'l', 't', 'i']) := h5
  simp [convert_st_to_type, h, h5d]

theorem convert_st_bad (g : String) (b : Bool) (h : g.toList.take 3 ≠ "ST_".toList) :
    convert_st_to_type g b = Except.error Err.invalidGeometryType := by
  have hd : ¬(List.take 3 g.data = ['S', 'T', '_']) := h
  simp [convert_st_to_type, hd]

theorem convert_ne_mixed (g : String) (b : Bool) :
    convert_st_to_type g b ≠ Except.error Err.mixedGeometryType := by
  unfold convert_st_to_type
  split
  · simp
  · split <;> simp

theorem intersect_spec (db : Db) (a b : String) (fa fb : List String)
    (av bi : Bool) (out_name : Option String) (t gt : String) (d : Nat)
    (hs : db.srid a = db.srid b)
    (hg : flatten (db.geomTypes b) = [t])
    (hc : convert_st_to_type t false = Except.ok gt)
    (hd : DIMENSION gt = some d) :
    SqlProcessor.intersect_geometries db a b fa fb av out_name bi =
      ([Stmt.selectSrid a, Stmt.selectSrid b, Stmt.selectGeometryTypes b,
        Stmt.createIntersection (if av then "VIEW" else "TABLE")
          (out_name.getD (b ++ "_tmp")) (intersect_fields fa fb) a b d]
        ++ (if out_name = none then [Stmt.dropAndRename b (b ++ "_tmp") b] else [])
        ++ (if bi && !av then [Stmt.createSpatialIndex (out_name.getD b)] else []),
       Except.ok ()) := by
  have hb : (db.srid a == db.srid b) = true := by simp [hs]
  cases out_name <;> cases av <;>
    simp [SqlProcessor.intersect_geometries, SqlProcessor.is_same_srid,
      SqlProcessor.get_srid, SqlProcessor.map_geometry_type,
      SqlProcessor.get_geometry_types, SqlProcessor.create_spatial_index,
      hb, hg, hc, hd, has_single_geometry_type]

theorem utils_intersect_spec (db : Db) (a b : String) (fa fb : List String)
    (av bi : Bool) (out_name : Option String) (t gt : String) (d : Nat)
    (rest : List (List String))
    (hg : db.geomTypes b = [t] :: rest)
    (hc : convert_st_to_type t false = Except.ok gt)
    (hd : DIMENSION gt = some d) :
    Utils.intersect_geometries db a b fa fb av out_name bi =
      ([Stmt.selectGeometryTypes b,
        Stmt.createIntersection (if av then "VIEW" else "TABLE")
          (out_name.getD (b ++ "_tmp")) (intersect_fields fa fb) a b d]
        ++ (if out_name = none then [Stmt.dropAndRename b (b ++ "_tmp") b] else [])
        ++ (if bi && !av then [Stmt.createSpatialIndex (out_name.getD b)] else []),
       Except.ok ()) := by
  cases out_name <;> cases av <;>
    simp [Utils.intersect_geometries, Utils.get_geometry_type,
      Utils.has_single_geometry_type, Utils.create_spatial_index, hg, hc, hd]

theorem dissolve_spec (db : Db) (a b out : String) (av bi : Bool)
    (hs : db.srid a = db.srid b) :
    SqlProcessor.dissolve_geometries db a b out av bi =
      ([Stmt.selectSrid a, Stmt.selectSrid b, Stmt.selectSrid a,
        Stmt.createDissolve (if av then "VIEW" else "TABLE") out "Polygon"
          (db.srid a) a b]
        ++ (if bi && !av then [Stmt.createSpatialIndex out] else []),
       Except.ok ()) := by
  have hb : (db.srid a == db.srid b) = true := by simp [hs]
  cases av <;>
    simp [SqlProcessor.dissolve_geometries, SqlProcessor.is_same_srid,
      SqlProcessor.get_srid, SqlProcessor.create_spatial_index, hb]

theorem aggregate_spec (db : Db) (a b out : String) (av bi : Bool)
    (hs : db.srid a = db.srid b) :
    Legacy.aggregate_relations db a b out av bi =
      ([Stmt.selectSrid a, Stmt.selectSrid b,
        Stmt.createDissolve (if av then "VIEW" else "TABLE") out "Polygon"
          (db.srid a) a b]
        ++ (if bi then [Stmt.createSpatialIndex out] else []),
       Except.ok ()) := by
  cases av <;>
    simp [Legacy.aggregate_relations, Legacy.create_spatial_index, hs]

theorem drop_loop_stop (db : Db) (kind : String) (pre post : List String) (x : String)
    (hpre : ∀ r ∈ pre, db.dropFails r = false) (hx : db.dropFails x = true) :
    SqlProcessor.drop_loop db kind (pre ++ x :: post) =
      (pre.map (fun r => Stmt.dropRelation kind r "CASCADE")
        ++ [Stmt.dropRelation kind x "CASCADE"],
       Except.error (Err.relationDrop x)) := by
  induction pre with
  | nil => simp [SqlProcessor.drop_loop, hx]
  | cons r rs ih =>
    have hr : db.dropFails r = false := hpre r (by simp)
    have hrs : ∀ q ∈ rs, db.dropFails q = false := fun q hq => hpre q (by simp [hq])
    simp [SqlProcessor.drop_loop, hr, ih hrs]

theorem stMulti_stMulti {α : Type} (g : Geometry α) : stMulti (stMulti g) = stMulti g := by
  cases g <;> rfl

/-- Claim C1, counterexample to the claim as stated: with input
relations reporting SRIDs 2154 and 4326, the utils.py / legacy.py
revision of `intersect_geometries` does not fail with the SRID-mismatch
error - it succeeds and issues its CREATE statement (and never issues an
SRID-check query at all). -/
theorem claim_C1_counterexample :
    dbMismatch.srid "a" ≠ dbMismatch.srid "b" ∧
    (Utils.intersect_geometries dbMismatch "a" "b" [] [] false none false).2 =
      Except.ok () ∧
    Stmt.createIntersection "TABLE" "b_tmp" "" "a" "b" 2 ∈
      (Utils.intersect_geometries dbMismatch "a" "b" [] [] false none false).1 := by
  decide

/-- Claim C1 (amended): when the reported SRIDs of the two inputs
differ, the current `SqlProcessor.intersect_geometries` and
`SqlProcessor.dissolve_geometries` fail with the SRID-mismatch error and
issue exactly the two SRID-check queries and nothing else (no CREATE,
DROP, RENAME or index statement); the utils.py / legacy.py revision of
`intersect_geometries`, however, performs no SRID check - it issues its
geometry-type query, the CREATE statement and, per its flags, the
replacement and index statements, and succeeds despite the mismatch. -/
theorem claim_C1 (db : Db) (a b diss_out : String) (fa fb : List String)
    (av bi : Bool) (out_name : Option String) (t gt : String) (d : Nat)
    (hs : db.srid a ≠ db.srid b)
    (hg : db.geomTypes b = [[t]])
    (hc : convert_st_to_type t false = Except.ok gt)
    (hd : DIMENSION gt = some d) :
    SqlProcessor.intersect_geometries db a b fa fb av out_name bi =
      ([Stmt.selectSrid a, Stmt.selectSrid b], Except.error Err.sridMismatch) ∧
    SqlProcessor.dissolve_geometries db a b diss_out av bi =
      ([Stmt.selectSrid a, Stmt.selectSrid b], Except.error Err.sridMismatch) ∧
    Utils.intersect_geometries db a b fa fb av out_name bi =
      ([Stmt.selectGeometryTypes b,
        Stmt.createIntersection (if av then "VIEW" else "TABLE")
          (out_name.getD (b ++ "_tmp")) (intersect_fields fa fb) a b d]
        ++ (if out_name = none then [Stmt.dropAndRename b (b ++ "_tmp") b] else [])
        ++ (if bi && !av then [Stmt.createSpatialIndex (out_name.getD b)] else []),
       Except.ok ()) := by
  have hb : (db.srid a == db.srid b) = false := by simp [hs]
  refine ⟨?_, ?_, ?_⟩
  · simp [SqlProcessor.intersect_geometries, SqlProcessor.is_same_srid,
      SqlProcessor.get_srid, hb]
  · simp [SqlProcessor.dissolve_geometries, SqlProcessor.is_same_srid,
      SqlProcessor.get_srid, hb]
  · exact utils_intersect_spec db a b fa fb av bi out_name t gt d [] hg hc hd

theorem claim_C1_witness :
    dbMismatch.srid "a" ≠ dbMismatch.srid "b" ∧
    SqlProcessor.intersect_geometries dbMismatch "a" "b" [] [] false none true =
      ([Stmt.selectSrid "a", Stmt.selectSrid "b"], Except.error Err.sridMismatch) ∧
    SqlProcessor.dissolve_geometries dbMismatch "a" "b" "z" false true =
      ([Stmt.selectSrid "a", Stmt.selectSrid "b"], Except.error Err.sridMismatch) := by
  have h := claim_C1 dbMismatch "a" "b" "z" [] [] false true none "ST_Polygon" "Polygon" 2
    (by decide) (by decide) (by decide) (by decide)
  exact ⟨by decide, h.1, h.2.1⟩

/-- Claim C2 (confirmed): for every intersect call whose SRID and
geometry-type preconditions are met, the call succeeds, the result
relation is created under `out_name` when given and under `relation_b`
plus `_tmp` otherwise; when `out_name` is absent the old `relation_b`
is dropped and the temporary result is renamed to `relation_b`; and a
spatial index statement is issued - on the final name, and on no other
name - exactly when the result is a table and `build_index` is set. -/
theorem claim_C2 (db : Db) (a b : String) (fa fb : List String)
    (av bi : Bool) (out_name : Option String) (t gt : String) (d : Nat)
    (hs : db.srid a = db.srid b)
    (hg : flatten (db.geomTypes b) = [t])
    (hc : convert_st_to_type t false = Except.ok gt)
    (hd : DIMENSION gt = some d) :
    (SqlProcessor.intersect_geometries db a b fa fb av out_name bi).2 = Except.ok () ∧
    Stmt.createIntersection (if av then "VIEW" else "TABLE")
        (out_name.getD (b ++ "_tmp")) (intersect_fields fa fb) a b d ∈
      (SqlProcessor.intersect_geometries db a b fa fb av out_name bi).1 ∧
    (out_name = none →
      Stmt.dropAndRename b (b ++ "_tmp") b ∈
        (SqlProcessor.intersect_geometries db a b fa fb av out_name bi).1) ∧
    (∀ n, Stmt.createSpatialIndex n ∈
        (SqlProcessor.intersect_geometries db a b fa fb av out_name bi).1 ↔
      (bi = true ∧ av = false ∧ n = out_name.getD b)) := by
  rw [intersect_spec db a b fa fb av bi out_name t gt d hs hg hc hd]
  cases out_name <;> cases av <;> cases bi <;> simp

theorem claim_C2_witness :
    dbEq.srid "a" = dbEq.srid "b" ∧
    flatten (dbEq.geomTypes "b") = ["ST_Polygon"] ∧
    (SqlProcessor.intersect_geometries dbEq "a" "b" [] [] false none true).2 =
      Except.ok () ∧
    Stmt.dropAndRename "b" ("b" ++ "_tmp") "b" ∈
      (SqlProcessor.intersect_geometries dbEq "a" "b" [] [] false none true).1 := by
  have h := claim_C2 dbEq "a" "b" [] [] false true none "ST_Polygon" "Polygon" 2
    rfl (by decide) (by decide) (by decide)
  exact ⟨rfl, by decide, h.1, h.2.2.1 rfl⟩

/-- Claim C3, counterexample to the claim as stated: the legacy.py
revision of the single-geometry-type check does not fail on the empty
set of types - it returns successfully although the cardinality is not
one. -/
theorem claim_C3_counterexample :
    Legacy.has_single_geometry_type ([] : List String) = Except.ok () ∧
    ([] : List String).length ≠ 1 := by
  decide

/-- Claim C3 (amended): the current check (lib.py
`has_single_geometry_type`, as used by `SqlProcessor.map_geometry_type`)
passes exactly when the number of distinct geometry types is one, and
the type-sensitive operation fails with the mixed-geometry-type error
exactly when that number is not one - for the empty set as well as for
two or more types - and otherwise proceeds by converting the sole
element; the legacy.py standalone check, however, raises only when the
number is strictly greater than one, so the empty set passes it. -/
theorem claim_C3 (l : List String) (db : Db) (r : String) (am : Bool)
    (hf : flatten (db.geomTypes r) = l) :
    (has_single_geometry_type l = true ↔ l.length = 1) ∧
    (Legacy.has_single_geometry_type l = Except.error Err.mixedGeometryType ↔
      1 < l.length) ∧
    ((SqlProcessor.map_geometry_type db r am).2 = Except.error Err.mixedGeometryType ↔
      ¬(l.length = 1)) ∧
    (∀ u, l = [u] →
      (SqlProcessor.map_geometry_type db r am).2 = convert_st_to_type u am) := by
  refine ⟨?_, ?_, ?_, ?_⟩
  · simp [has_single_geometry_type]
  · unfold Legacy.has_single_geometry_type
    split <;> simp [*]
  · by_cases h1 : l.length = 1
    · obtain ⟨u, rfl⟩ : ∃ u, l = [u] := by
        match l, h1 with
        | [u], _ => exact ⟨u, rfl⟩
      simp [SqlProcessor.map_geometry_type, SqlProcessor.get_geometry_types, hf,
        has_single_geometry_type, convert_ne_mixed]
    · simp [SqlProcessor.map_geometry_type, SqlProcessor.get_geometry_types, hf,
        has_single_geometry_type, h1]
  · rintro u rfl
    simp [SqlProcessor.map_geometry_type, SqlProcessor.get_geometry_types, hf,
      has_single_geometry_type]

theorem claim_C3_witness :
    flatten (dbEq.geomTypes "r") = ["ST_Polygon"] ∧
    ((SqlProcessor.map_geometry_type dbEq "r" true).2 =
        Except.error Err.mixedGeometryType ↔
      ¬((["ST_Polygon"] : List String).length = 1)) := by
  have h := claim_C3 ["ST_Polygon"] dbEq "r" true (by decide)
  exact ⟨by decide, h.2.2.1⟩

/-- Claim C4 (confirmed): for every string with the three-character
marker `ST_` in front, the normalizer with multipart allowed returns the
remainder unchanged; with multipart disallowed it removes a leading
`Multi` segment exactly when one is present; and every string without
the marker raises the invalid-geometry-type error. -/
theorem claim_C4 (s g : String) (b : Bool) :
    convert_st_to_type ("ST_" ++ s) true = Except.ok s ∧
    (s.toList.take 5 = "Multi".toList →
      convert_st_to_type ("ST_" ++ s) false = Except.ok (String.mk (s.toList.drop 5))) ∧
    (s.toList.take 5 ≠ "Multi".toList →
      convert_st_to_type ("ST_" ++ s) false = Except.ok s) ∧
    (g.toList.take 3 ≠ "ST_".toList →
      convert_st_to_type g b = Except.error Err.invalidGeometryType) :=
  ⟨convert_st_yes s, convert_st_multi s, convert_st_nomulti s, convert_st_bad g b⟩

theorem claim_C4_witness :
    "MultiPolygon".toList.take 5 = "Multi".toList ∧
    convert_st_to_type ("ST_" ++ "MultiPolygon") false = Except.ok "Polygon" ∧
    "XY_Polygon".toList.take 3 ≠ "ST_".toList ∧
    convert_st_to_type "XY_Polygon" true = Except.error Err.invalidGeometryType := by
  have h := claim_C4 "MultiPolygon" "XY_Polygon" true
  exact ⟨by decide, h.2.1 (by decide), by decide, h.2.2.2 (by decide)⟩

/-- Claim C5, counterexample to the claim as stated: when the engine
reports a type string without the `ST_` marker, the embedded
`SqlProcessor.get_geometry_types` returns the fetched rows unchanged -
still grouped and with the raw string intact - and raises nothing,
whereas the behaviour the claim describes (here `get_geometry_types_claimed`)
would fail with the invalid-geometry-type error. -/
theorem claim_C5_counterexample :
    (SqlProcessor.get_geometry_types dbBadType "communes").2 = [["XY_Polygon"]] ∧
    get_geometry_types_claimed dbBadType "communes" =
      Except.error Err.invalidGeometryType := by
  constructor
  · rfl
  · rfl

/-- Claim C5 (amended): `SqlProcessor.get_geometry_types` issues the
distinct-geometry-type query and returns the fetched rows exactly as the
engine produced them - neither normalized nor flattened, and it never
raises; flattening happens in `SqlProcessor.map_geometry_type`, and
normalization (marker strip, with the invalid-geometry-type error when
the marker is absent) is applied there only to the sole element after
the single-type check. -/
theorem claim_C5 (db : Db) (r t u : String)
    (hf : flatten (db.geomTypes r) = [t]) :
    (SqlProcessor.get_geometry_types db r).2 = db.geomTypes r ∧
    (t = "ST_" ++ u → (SqlProcessor.map_geometry_type db r true).2 = Except.ok u) ∧
    (t.toList.take 3 ≠ "ST_".toList →
      (SqlProcessor.map_geometry_type db r true).2 =
        Except.error Err.invalidGeometryType) := by
  refine ⟨rfl, ?_, ?_⟩
  · rintro rfl
    simp [SqlProcessor.map_geometry_type, SqlProcessor.get_geometry_types, hf,
      has_single_geometry_type, convert_st_yes]
  · intro h3
    simp [SqlProcessor.map_geometry_type, SqlProcessor.get_geometry_types, hf,
      has_single_geometry_type, convert_st_bad t true h3]

theorem claim_C5_witness :
    flatten (dbMulti.geomTypes "c") = ["ST_MultiPolygon"] ∧
    ("ST_MultiPolygon" : String) = "ST_" ++ "MultiPolygon" ∧
    (SqlProcessor.map_geometry_type dbMulti "c" true).2 = Except.ok "MultiPolygon" := by
  have h := claim_C5 dbMulti "c" "ST_MultiPolygon" "MultiPolygon" (by decide)
  exact ⟨by decide, by decide, h.2.1 (by decide)⟩

/-- Claim C6, counterexample to the claim as stated: the legacy.py /
utils.py revision `aggregate_relations`, called with `as_view = true`
and `build_index = true` on same-SRID inputs, succeeds and issues the
spatial-index statement although the result is a view - the index step
is not restricted to tables there. -/
theorem claim_C6_counterexample :
    (Legacy.aggregate_relations dbEq "x" "y" "z" true true).2 = Except.ok () ∧
    Stmt.createSpatialIndex "z" ∈ (Legacy.aggregate_relations dbEq "x" "y" "z" true true).1 := by
  decide

/-- Claim C6 (amended): for every dissolve call on same-SRID inputs,
the SRID placed in the CREATE statement is the one reported for
`relation_a`, the result is created under `out_name` as a table or view
per `as_view` with its geometry declared as singlepart Polygon at that
SRID, and in the current `SqlProcessor.dissolve_geometries` the spatial
index is built on `out_name` exactly when the result is a table and
`build_index` is set; in the legacy.py / utils.py revision
`aggregate_relations`, however, the index is built whenever
`build_index` is set, also when the result is a view. -/
theorem claim_C6 (db : Db) (a b out : String) (av bi : Bool)
    (hs : db.srid a = db.srid b) :
    SqlProcessor.dissolve_geometries db a b out av bi =
      ([Stmt.selectSrid a, Stmt.selectSrid b, Stmt.selectSrid a,
        Stmt.createDissolve (if av then "VIEW" else "TABLE") out "Polygon"
          (db.srid a) a b]
        ++ (if bi && !av then [Stmt.createSpatialIndex out] else []),
       Except.ok ()) ∧
    Legacy.aggregate_relations db a b out av bi =
      ([Stmt.selectSrid a, Stmt.selectSrid b,
        Stmt.createDissolve (if av then "VIEW" else "TABLE") out "Polygon"
          (db.srid a) a b]
        ++ (if bi then [Stmt.createSpatialIndex out] else []),
       Except.ok ()) ∧
    (∀ n, Stmt.createSpatialIndex n ∈ (SqlProcessor.dissolve_geometries db a b out av bi).1 ↔
      (bi = true ∧ av = false ∧ n = out)) ∧
    (Stmt.createSpatialIndex out ∈ (Legacy.aggregate_relations db a b out av bi).1 ↔
      bi = true) := by
  refine ⟨dissolve_spec db a b out av bi hs, aggregate_spec db a b out av bi hs, ?_, ?_⟩
  · rw [dissolve_spec db a b out av bi hs]
    cases av <;> cases bi <;> simp
  · rw [aggregate_spec db a b out av bi hs]
    cases av <;> cases bi <;> simp

theorem claim_C6_witness :
    dbEq.srid "x" = dbEq.srid "y" ∧
    SqlProcessor.dissolve_geometries dbEq "x" "y" "z" false true =
      ([Stmt.selectSrid "x", Stmt.selectSrid "y", Stmt.selectSrid "x",
        Stmt.createDissolve "TABLE" "z" "Polygon" 2154 "x" "y",
        Stmt.createSpatialIndex "z"],
       Except.ok ()) := by
  have h := claim_C6 dbEq "x" "y" "z" false true rfl
  exact ⟨rfl, h.1⟩

/-- Claim C7 (confirmed): `SqlProcessor.drop_relations` raises the
invalid-relation-kind error and issues zero drop statements whenever
the uppercased kind is neither TABLE nor VIEW; and when the engine
rejects the drop of some name, that failure is re-raised as the
relation-drop error naming that relation and the remaining names are
not processed - the trace ends with the failing drop. -/
theorem claim_C7 (db : Db) (kind : String) (names pre post : List String) (x : String) :
    (pyUpper kind ≠ "TABLE" → pyUpper kind ≠ "VIEW" →
      SqlProcessor.drop_relations db kind names =
        ([], Except.error Err.invalidRelationKind)) ∧
    ((pyUpper kind = "TABLE" ∨ pyUpper kind = "VIEW") →
      (∀ r ∈ pre, db.dropFails r = false) → db.dropFails x = true →
      SqlProcessor.drop_relations db kind (pre ++ x :: post) =
        (pre.map (fun r => Stmt.dropRelation kind r "CASCADE")
          ++ [Stmt.dropRelation kind x "CASCADE"],
         Except.error (Err.relationDrop x))) := by
  constructor
  · intro h1 h2
    simp [SqlProcessor.drop_relations, h1, h2]
  · intro hk hpre hx
    rcases hk with h | h <;>
      simp [SqlProcessor.drop_relations, h, drop_loop_stop db kind pre post x hpre hx]

theorem claim_C7_witness :
    pyUpper "INDEX" ≠ "TABLE" ∧ pyUpper "INDEX" ≠ "VIEW" ∧
    SqlProcessor.drop_relations dbDrop "INDEX" ["a", "b"] =
      ([], Except.error Err.invalidRelationKind) ∧
    dbDrop.dropFails "bad" = true ∧
    SqlProcessor.drop_relations dbDrop "TABLE" (["a"] ++ "bad" :: ["c"]) =
      ([Stmt.dropRelation "TABLE" "a" "CASCADE",
        Stmt.dropRelation "TABLE" "bad" "CASCADE"],
       Except.error (Err.relationDrop "bad")) := by
  have h1 := claim_C7 dbDrop "INDEX" ["a", "b"] ["a"] ["c"] "bad"
  have h2 := claim_C7 dbDrop "TABLE" ["a", "b"] ["a"] ["c"] "bad"
  refine ⟨by decide, by decide, h1.1 (by decide) (by decide), by decide, ?_⟩
  have h3 := h2.2 (by decide) (by decide) (by decide)
  simpa using h3

/-- Claim C8 (confirmed): `SqlProcessor.execute_query` fails with the
unsupported-mode error for every mode whose lowercased form is neither
file nor string, and fails with the configuration error when file mode
is requested while no SQL directory is configured; in both cases the
result is an error, so no statement is produced for the engine. -/
theorem claim_C8 (sql_directory : Option String) (readFile : String → String)
    (mode query : String) (parameters : List String) :
    (pyLower mode ≠ "file" → pyLower mode ≠ "string" →
      SqlProcessor.execute_query sql_directory readFile mode query parameters =
        Except.error Err.unsupportedMode) ∧
    (pyLower mode = "file" → sql_directory = none →
      SqlProcessor.execute_query sql_directory readFile mode query parameters =
        Except.error Err.configurationError) := by
  constructor
  · intro h1 h2
    simp [SqlProcessor.execute_query, h1, h2]
  · intro h1 h2
    simp [SqlProcessor.execute_query, h1, h2]

theorem claim_C8_witness :
    pyLower "exec" ≠ "file" ∧ pyLower "exec" ≠ "string" ∧
    SqlProcessor.execute_query (some "/sql") (fun s => s) "exec" "q" [] =
      Except.error Err.unsupportedMode ∧
    pyLower "FILE" = "file" ∧
    SqlProcessor.execute_query none (fun s => s) "FILE" "q" [] =
      Except.error Err.configurationError := by
  have h1 := claim_C8 (some "/sql") (fun s => s) "exec" "q" []
  have h2 := claim_C8 none (fun s => s) "FILE" "q" []
  exact ⟨by decide, by decide, h1.1 (by decide) (by decide), by decide,
    h2.2 (by decide) rfl⟩

/-- Claim C9 (confirmed): the data-level effect of the
singlepart-to-multipart operation is idempotent - rewriting every
stored geometry through the modelled `ST_Multi` twice yields the same
stored geometry list as rewriting once, since a multipart geometry is
left unchanged. -/
theorem claim_C9 {α : Type} (rows : List (Geometry α)) :
    singlepart_to_multipart_data (singlepart_to_multipart_data rows) =
      singlepart_to_multipart_data rows := by
  induction rows with
  | nil => rfl
  | cons g gs ih =>
    simp only [singlepart_to_multipart_data, List.map_cons, stMulti_stMulti]
    exact congrArg (List.cons (stMulti g)) ih

/-- Claim C10 (confirmed): in both the current and the utils.py
revisions of the intersect operation, when `out_name` is absent the
drop-and-rename statement is issued unconditionally - independent of
`as_view` - so a call with `out_name` absent and `as_view` set creates
a view under `relation_b` plus `_tmp` and then issues the DROP TABLE /
ALTER TABLE RENAME statement against it, while no spatial-index
statement is issued for a view: only the index step is guarded by the
table-versus-view distinction. -/
theorem claim_C10 (db : Db) (a b : String) (fa fb : List String)
    (av bi : Bool) (t gt : String) (d : Nat)
    (hs : db.srid a = db.srid b)
    (hg : db.geomTypes b = [[t]])
    (hc : convert_st_to_type t false = Except.ok gt)
    (hd : DIMENSION gt = some d) :
    Stmt.dropAndRename b (b ++ "_tmp") b ∈
      (SqlProcessor.intersect_geometries db a b fa fb av none bi).1 ∧
    (SqlProcessor.intersect_geometries db a b fa fb true none bi).1 =
      [Stmt.selectSrid a, Stmt.selectSrid b, Stmt.selectGeometryTypes b,
       Stmt.createIntersection "VIEW" (b ++ "_tmp") (intersect_fields fa fb) a b d,
       Stmt.dropAndRename b (b ++ "_tmp") b] ∧
    (Utils.intersect_geometries db a b fa fb true none bi).1 =
      [Stmt.selectGeometryTypes b,
       Stmt.createIntersection "VIEW" (b ++ "_tmp") (intersect_fields fa fb) a b d,
       Stmt.dropAndRename b (b ++ "_tmp") b] ∧
    (∀ n, Stmt.createSpatialIndex n ∉
      (SqlProcessor.intersect_geometries db a b fa fb true none bi).1) := by
  have hfl : flatten (db.geomTypes b) = [t] := by simp [flatten, hg]
  refine ⟨?_, ?_, ?_, ?_⟩
  · rw [intersect_spec db a b fa fb av bi none t gt d hs hfl hc hd]
    simp
  · rw [intersect_spec db a b fa fb true bi none t gt d hs hfl hc hd]
    simp
  · rw [utils_intersect_spec db a b fa fb true bi none t gt d [] hg hc hd]
    simp
  · rw [intersect_spec db a b fa fb true bi none t gt d hs hfl hc hd]
    simp

theorem claim_C10_witness :
    dbEq.srid "a" = dbEq.srid "b" ∧
    dbEq.geomTypes "b" = [["ST_Polygon"]] ∧
    (SqlProcessor.intersect_geometries dbEq "a" "b" [] [] true none true).1 =
      [Stmt.selectSrid "a", Stmt.selectSrid "b", Stmt.selectGeometryTypes "b",
       Stmt.createIntersection "VIEW" ("b" ++ "_tmp") (intersect_fields [] []) "a" "b" 2,
       Stmt.dropAndRename "b" ("b" ++ "_tmp") "b"] := by
  have h := claim_C10 dbEq "a" "b" [] [] true true "ST_Polygon" "Polygon" 2
    rfl rfl (by decide) (by decide)
  exact ⟨rfl, rfl, h.2.1⟩
